import Mathlib

/-!
Verification of the MAVInsight data-collection core (`MAVInsight/data_collector.py`)
against its natural-language specification.

The Python module is embedded shallowly:

* a MAVLink message object is a record of its type string (`get_type()`) and its
  possibly-missing numeric attributes; Python attribute access `msg.roll` is
  `pyGetAttr`, which raises `AttributeError` when the attribute is absent;
* the dictionaries built by the extractors become the `AttitudeRecord` /
  `PositionRecord` structures, wrapped in the union type `MsgData` (a Python
  list may hold either dict);
* wall-clock time (`time.time()`) is an input: each loop iteration carries the
  clock value read during it;
* the `DataCollector` object state is the structure `DataCollector`; methods
  become functions on it, fallible ones returning `Except PyError`;
* the background collection loop run over a finite schedule of `recv_msg`
  results is `runLoop`; the two-thread stop/join protocol is modelled
  separately as the labelled transition system `Step` on `Sys`.

Numeric attitude fields (Python floats) are modelled as `Rat`; no arithmetic is
ever performed on them, only copying, so the carrier only needs equality.
Position fields are `Int` (MAVLink GLOBAL_POSITION_INT carries int32 values).
-/

/-- Python exceptions that the embedded code can raise.  The only one reachable
in this module is `AttributeError`, from accessing a missing attribute. -/
inductive PyError where
  | attributeError
deriving DecidableEq, Repr

/-- A MAVLink message as seen by the collector: its `get_type()` string and its
kind-specific attributes.  An attribute is `none` when the object lacks it
(the "malformed message" case of the spec). -/
structure Msg where
  get_type : String
  roll : Option Rat := none
  pitch : Option Rat := none
  yaw : Option Rat := none
  lat : Option Int := none
  lon : Option Int := none
  alt : Option Int := none
deriving DecidableEq, Repr

/-- Python attribute access: yields the value, or raises `AttributeError` when
the object has no such attribute. -/
def pyGetAttr {α : Type} : Option α → Except PyError α
  | some v => Except.ok v
  | none => Except.error PyError.attributeError

/-- The dictionary built by `_process_attitude_message`:
`{"timestamp": ..., "roll": ..., "pitch": ..., "yaw": ...}`. -/
structure AttitudeRecord where
  timestamp : Rat
  roll : Rat
  pitch : Rat
  yaw : Rat
deriving DecidableEq, Repr

/-- The dictionary built by `_process_position_message`:
`{"timestamp": ..., "latitude": ..., "longitude": ..., "altitude": ...}`. -/
structure PositionRecord where
  timestamp : Rat
  latitude : Int
  longitude : Int
  altitude : Int
deriving DecidableEq, Repr

/-- A value stored in one of the collector's Python lists: either kind of
extractor dictionary. -/
inductive MsgData where
  | attitude (d : AttitudeRecord)
  | position (d : PositionRecord)
deriving DecidableEq, Repr

/-- Number of entries of the dictionary: both dict literals in the source have
exactly four keys. -/
def MsgData.entryCount : MsgData → Nat
  | .attitude _ => 4
  | .position _ => 4

/-- Python truthiness of the extractor's dictionary (`if data:` in the loop):
a dict is truthy iff it is non-empty. -/
def pyDictTruthy (d : MsgData) : Bool :=
  d.entryCount ≠ 0

/-- Embeds `DataCollector._process_attitude_message`: reads `msg.roll`,
`msg.pitch`, `msg.yaw` (plain attribute access, so a missing field raises),
stamps the current time and returns the dictionary. -/
def _process_attitude_message (now : Rat) (msg : Msg) : Except PyError AttitudeRecord :=
  match pyGetAttr msg.roll with
  | Except.error e => Except.error e
  | Except.ok roll =>
    match pyGetAttr msg.pitch with
    | Except.error e => Except.error e
    | Except.ok pitch =>
      match pyGetAttr msg.yaw with
      | Except.error e => Except.error e
      | Except.ok yaw =>
        let timestamp := now
        Except.ok { timestamp := timestamp, roll := roll, pitch := pitch, yaw := yaw }

/-- Embeds `DataCollector._process_position_message`: reads `msg.lat`,
`msg.lon`, `msg.alt` (plain attribute access, so a missing field raises),
stamps the current time and returns the dictionary.  The values are stored
as read; no unit conversion appears in the body. -/
def _process_position_message (now : Rat) (msg : Msg) : Except PyError PositionRecord :=
  match pyGetAttr msg.lat with
  | Except.error e => Except.error e
  | Except.ok lat =>
    match pyGetAttr msg.lon with
    | Except.error e => Except.error e
    | Except.ok lon =>
      match pyGetAttr msg.alt with
      | Except.error e => Except.error e
      | Except.ok alt =>
        let timestamp := now
        Except.ok { timestamp := timestamp, latitude := lat, longitude := lon, altitude := alt }

/-- Embeds the dispatch dict `self.message_types`, built once in `__init__`:
`{"ATTITUDE": self._process_attitude_message,
  "GLOBAL_POSITION_INT": self._process_position_message}`.
Dict lookup by key returns the bound extractor or nothing.  The clock value
is threaded to the extractor, which calls `time.time()` internally. -/
def message_types (now : Rat) (k : String) : Option (Msg → Except PyError MsgData) :=
  if k = "ATTITUDE" then
    some (fun m => (_process_attitude_message now m).map MsgData.attitude)
  else if k = "GLOBAL_POSITION_INT" then
    some (fun m => (_process_position_message now m).map MsgData.position)
  else
    none

/-- The mutable state of a `DataCollector` object: the two data lists, the
`running` flag and the (possibly absent) thread handle.  The MAVLink
connection and the fixed `message_types` dict carry no state and are left
out. -/
structure DataCollector where
  attitude_data : List MsgData
  position_data : List MsgData
  running : Bool
  collection_thread : Option Unit
deriving DecidableEq, Repr

/-- The state `__init__` leaves a fresh collector in: empty lists,
`running = False`, `collection_thread = None`. -/
def initialCollector : DataCollector :=
  { attitude_data := [], position_data := [], running := false,
    collection_thread := none }

/-- Embeds one iteration body of `DataCollector._collection_loop` (after the
`while self.running` check): the `recv_msg()` result is `msg`; a `None`
message is skipped; otherwise the type is looked up in `message_types`, the
extractor is invoked (its exception, if any, propagates and kills the loop),
and a truthy result is appended to the list selected by the `if`/`elif`
chain on the message type. -/
def processMsg (now : Rat) (c : DataCollector) (msg : Option Msg) : Except PyError DataCollector :=
  match msg with
  | none => Except.ok c
  | some m =>
    match message_types now m.get_type with
    | none => Except.ok c
    | some extract =>
      match extract m with
      | Except.error e => Except.error e
      | Except.ok data =>
        if pyDictTruthy data then
          if m.get_type = "ATTITUDE" then
            Except.ok { c with attitude_data := c.attitude_data ++ [data] }
          else if m.get_type = "GLOBAL_POSITION_INT" then
            Except.ok { c with position_data := c.position_data ++ [data] }
          else
            Except.ok c
        else
          Except.ok c

/-- Runs `_collection_loop` over a finite schedule of iterations, the flag
staying true throughout.  Each event pairs the `recv_msg()` result with the
wall-clock reading of that iteration.  An uncaught exception terminates the
loop thread at once: the state already accumulated is kept and the error is
reported. -/
def runLoop (c : DataCollector) : List (Option Msg × Rat) → DataCollector × Option PyError
  | [] => (c, none)
  | (m, t) :: rest =>
    match processMsg t c m with
    | Except.ok c' => runLoop c' rest
    | Except.error e => (c, some e)

/-- The result of `get_collected_data`: a single `pandas.DataFrame` (its rows,
in order), the dict of both DataFrames, or Python `None`. -/
inductive QueryResult where
  | frame (rows : List MsgData)
  | frames (att : List MsgData) (pos : List MsgData)
  | pyNone
deriving DecidableEq, Repr

/-- Python truthiness of the `message_type` argument (`if message_type:`):
`None` and the empty string are falsy, any other string is truthy. -/
def pyStrTruthy : Option String → Bool
  | none => false
  | some s => !s.isEmpty

/-- Embeds `DataCollector.get_collected_data`.  `pd.DataFrame(lst)` copies the
rows of `lst` at call time, so a snapshot is the value of the list when the
call is made. -/
def get_collected_data (c : DataCollector) (message_type : Option String) : QueryResult :=
  if pyStrTruthy message_type then
    if message_type = some "ATTITUDE" then
      QueryResult.frame c.attitude_data
    else if message_type = some "GLOBAL_POSITION_INT" then
      QueryResult.frame c.position_data
    else
      QueryResult.pyNone
  else
    QueryResult.frames c.attitude_data c.position_data

/-- The call `get_collected_data` viewed as a state transformer: the method
body only reads `self`, so the object state it leaves behind is the one it
was called on. -/
def get_collected_data_call (c : DataCollector) (message_type : Option String) :
    QueryResult × DataCollector :=
  (get_collected_data c message_type, c)

/-- Embeds `DataCollector.stop_collection`: first `self.running = False`, then
`self.collection_thread.join()` — which raises `AttributeError` when the
thread handle is still `None`.  Returns the object state after the call
together with the exception, if one was raised. -/
def stop_collection (c : DataCollector) : DataCollector × Option PyError :=
  let c1 : DataCollector := { c with running := false }
  match c1.collection_thread with
  | none => (c1, some PyError.attributeError)
  | some _ => (c1, none)

/-- Records "the extractor yielded absent": per the loop's `if data:` check,
a returned value is absent exactly when it is falsy.  A raised exception is
not a yield at all, so it does not count as absent. -/
def yieldsAbsent (r : Except PyError MsgData) : Bool :=
  match r with
  | Except.ok d => !pyDictTruthy d
  | Except.error _ => false

/-- A message carries every attribute its type's extractor reads (a message of
an uncollected type vacuously does). -/
def msgWellFormed (m : Msg) : Bool :=
  if m.get_type = "ATTITUDE" then
    m.roll.isSome && m.pitch.isSome && m.yaw.isSome
  else if m.get_type = "GLOBAL_POSITION_INT" then
    m.lat.isSome && m.lon.isSome && m.alt.isSome
  else
    true

/-- A loop event is well formed when its message (if any) is. -/
def evWellFormed : Option Msg × Rat → Bool
  | (none, _) => true
  | (some m, _) => msgWellFormed m

/-- The ATTITUDE record one loop event contributes: the dictionary produced by
the attitude extractor, when the event carries an ATTITUDE message, the
extraction succeeds and the dictionary is truthy. -/
def extractedAttitude (ev : Option Msg × Rat) : Option MsgData :=
  match ev.1 with
  | none => none
  | some m =>
    if m.get_type = "ATTITUDE" then
      match _process_attitude_message ev.2 m with
      | Except.ok d =>
        if pyDictTruthy (MsgData.attitude d) then some (MsgData.attitude d) else none
      | Except.error _ => none
    else none

/-- The GLOBAL_POSITION_INT record one loop event contributes, analogously. -/
def extractedPosition (ev : Option Msg × Rat) : Option MsgData :=
  match ev.1 with
  | none => none
  | some m =>
    if m.get_type = "GLOBAL_POSITION_INT" then
      match _process_position_message ev.2 m with
      | Except.ok d =>
        if pyDictTruthy (MsgData.position d) then some (MsgData.position d) else none
      | Except.error _ => none
    else none

/-- An ATTITUDE message carrying all three attributes. -/
def goodAtt : Msg :=
  { get_type := "ATTITUDE", roll := some 1, pitch := some 2, yaw := some 3 }

/-- A malformed ATTITUDE message: the `roll` attribute is missing. -/
def badAtt : Msg :=
  { get_type := "ATTITUDE", pitch := some 2, yaw := some 3 }

/-- A GLOBAL_POSITION_INT message with the raw values of spec Scenario 2. -/
def goodPos : Msg :=
  { get_type := "GLOBAL_POSITION_INT",
    lat := some 473978450, lon := some 85455280, alt := some 500000 }

/-- A message of a type absent from the dispatch dict. -/
def heartbeatMsg : Msg :=
  { get_type := "HEARTBEAT" }

/-!
Two-thread model of `stop_collection` against the running loop.

The loop thread executes `_collection_loop`: it checks `self.running` at the
top of each iteration (`check`), blocks in `recv_msg()` (`recvWait`), then
processes the received value (`dispatch`); when the check sees the flag
cleared, or the iteration body raises, the thread exits (`exited`).  The
caller's thread executes `stop_collection` on a started collector: it clears
the flag (`idle` to `flagCleared`, the line `self.running = False`) and then
blocks in `join()`, which returns only once the loop thread has exited
(`flagCleared` to `returned`).  The pending list is the stream of `recv_msg`
results the link will deliver; an empty list is a receive that never returns.
-/

/-- Program counter of the collection-loop thread. -/
inductive LoopPC where
  | check
  | recvWait
  | dispatch (ev : Option Msg × Rat)
  | exited
deriving DecidableEq, Repr

/-- Program counter of the caller thread running `stop_collection`. -/
inductive StopPC where
  | idle
  | flagCleared
  | returned
deriving DecidableEq, Repr

/-- A configuration of the two-thread system: the shared collector object, the
two program counters, and the stream of future `recv_msg` results. -/
structure Sys where
  coll : DataCollector
  loopPC : LoopPC
  stopPC : StopPC
  pending : List (Option Msg × Rat)
deriving DecidableEq, Repr

/-- Interleaved small-step semantics of the loop thread and the stopping
caller. -/
inductive Step : Sys → Sys → Prop where
  | checkTrue (s : Sys) :
      s.loopPC = LoopPC.check → s.coll.running = true →
      Step s { s with loopPC := LoopPC.recvWait }
  | checkFalse (s : Sys) :
      s.loopPC = LoopPC.check → s.coll.running = false →
      Step s { s with loopPC := LoopPC.exited }
  | recvDeliver (s : Sys) (ev : Option Msg × Rat) (rest : List (Option Msg × Rat)) :
      s.loopPC = LoopPC.recvWait → s.pending = ev :: rest →
      Step s { s with loopPC := LoopPC.dispatch ev, pending := rest }
  | dispatchOk (s : Sys) (ev : Option Msg × Rat) (c' : DataCollector) :
      s.loopPC = LoopPC.dispatch ev → processMsg ev.2 s.coll ev.1 = Except.ok c' →
      Step s { s with coll := c', loopPC := LoopPC.check }
  | dispatchErr (s : Sys) (ev : Option Msg × Rat) (e : PyError) :
      s.loopPC = LoopPC.dispatch ev → processMsg ev.2 s.coll ev.1 = Except.error e →
      Step s { s with loopPC := LoopPC.exited }
  | stopSet (s : Sys) :
      s.stopPC = StopPC.idle →
      Step s { s with coll := { s.coll with running := false },
                      stopPC := StopPC.flagCleared }
  | stopJoin (s : Sys) :
      s.stopPC = StopPC.flagCleared → s.loopPC = LoopPC.exited →
      Step s { s with stopPC := StopPC.returned }

/-- Reflexive-transitive closure of `Step`. -/
inductive Reachable (i : Sys) : Sys → Prop where
  | refl : Reachable i i
  | tail {s s' : Sys} : Reachable i s → Step s s' → Reachable i s'

/-!
Theorems.
-/

/-- Claim C4: for every non-empty kind string that is neither "ATTITUDE" nor
"GLOBAL_POSITION_INT", `get_collected_data` returns Python `None` (the
explicit "no such kind" result); the embedded body is a total function, so
no exception is raised. -/
theorem get_collected_data_unrecognized (c : DataCollector) (k : String)
    (hne : k ≠ "") (ha : k ≠ "ATTITUDE") (hp : k ≠ "GLOBAL_POSITION_INT") :
    get_collected_data c (some k) = QueryResult.pyNone := by
  simp [get_collected_data, pyStrTruthy, String.isEmpty_iff, hne, ha, hp]

/-- Witness for C4: querying the kind "BOGUS" on a fresh collector yields
`None`. -/
theorem get_collected_data_unrecognized_witness :
    get_collected_data initialCollector (some "BOGUS") = QueryResult.pyNone :=
  get_collected_data_unrecognized initialCollector "BOGUS"
    (by decide) (by decide) (by decide)

/-- Claim C9: the empty string is falsy, so `get_collected_data ""` takes the
no-argument branch: it returns the full mapping of both recognized kinds to
their snapshots, exactly as when the argument is omitted, and not the
"no such kind" result. -/
theorem get_collected_data_empty_string (c : DataCollector) :
    get_collected_data c (some "") = get_collected_data c none ∧
    get_collected_data c (some "") = QueryResult.frames c.attitude_data c.position_data ∧
    get_collected_data c (some "") ≠ QueryResult.pyNone := by
  refine ⟨rfl, rfl, ?_⟩
  intro h
  have h' : QueryResult.frames c.attitude_data c.position_data = QueryResult.pyNone := h
  exact QueryResult.noConfusion h'

/-- Claim C8: querying is idempotent.  The method body only reads the object,
so a call leaves the state unchanged, and a second call with the same
argument and no intervening message returns the identical snapshot. -/
theorem get_collected_data_idempotent (c : DataCollector) (mt : Option String) :
    (get_collected_data_call c mt).2 = c ∧
    (get_collected_data_call (get_collected_data_call c mt).2 mt).1 =
      (get_collected_data_call c mt).1 :=
  ⟨rfl, rfl⟩

/-- Claim C3: for each recognized kind the snapshot's rows are exactly the
kind's list at call time, in order; and because `pd.DataFrame` copies the
rows out of the list, a later append yields a state whose snapshot differs
from the one already returned — the old snapshot keeps the old rows. -/
theorem get_collected_data_snapshot (c : DataCollector) (d : MsgData) :
    get_collected_data c (some "ATTITUDE") = QueryResult.frame c.attitude_data ∧
    get_collected_data c (some "GLOBAL_POSITION_INT") = QueryResult.frame c.position_data ∧
    get_collected_data { c with attitude_data := c.attitude_data ++ [d] }
        (some "ATTITUDE") ≠ get_collected_data c (some "ATTITUDE") ∧
    get_collected_data { c with position_data := c.position_data ++ [d] }
        (some "GLOBAL_POSITION_INT") ≠ get_collected_data c (some "GLOBAL_POSITION_INT") := by
  refine ⟨rfl, rfl, ?_, ?_⟩
  · intro h
    have h' : QueryResult.frame (c.attitude_data ++ [d]) = QueryResult.frame c.attitude_data := h
    injection h' with hrows
    have hlen := congrArg List.length hrows
    simp at hlen
  · intro h
    have h' : QueryResult.frame (c.position_data ++ [d]) = QueryResult.frame c.position_data := h
    injection h' with hrows
    have hlen := congrArg List.length hrows
    simp at hlen

/-- Claim C6: the position extractor stores the message's `lat`, `lon`, `alt`
values unchanged — raw units as received, no conversion. -/
theorem position_fields_raw (now : Rat) (m : Msg) (la lo al : Int)
    (hla : m.lat = some la) (hlo : m.lon = some lo) (hal : m.alt = some al) :
    _process_position_message now m = Except.ok
      { timestamp := now, latitude := la, longitude := lo, altitude := al } := by
  simp [_process_position_message, pyGetAttr, hla, hlo, hal]

/-- Witness for C6: the Scenario 2 message (lat=473978450, lon=85455280,
alt=500000) yields a record with those raw values. -/
theorem position_fields_raw_witness :
    _process_position_message 0 goodPos = Except.ok
      { timestamp := 0, latitude := 473978450, longitude := 85455280, altitude := 500000 } :=
  position_fields_raw 0 goodPos 473978450 85455280 500000 rfl rfl rfl

/-- Claim C10: calling `stop_collection` on a collector that was never started
(thread handle still `None`) first clears the running flag and then raises
`AttributeError` on `None.join()`: the call does not return normally, and
the flag is left at `Stopped`. -/
theorem stop_collection_unstarted (c : DataCollector)
    (h : c.collection_thread = none) :
    stop_collection c = ({ c with running := false }, some PyError.attributeError) := by
  simp [stop_collection, h]

/-- Witness for C10: stopping a freshly constructed collector raises, with the
flag left cleared. -/
theorem stop_collection_unstarted_witness :
    stop_collection initialCollector =
      ({ initialCollector with running := false }, some PyError.attributeError) :=
  stop_collection_unstarted initialCollector rfl

/-- A malformed GLOBAL_POSITION_INT message: the `lat` attribute is missing. -/
def badPos : Msg :=
  { get_type := "GLOBAL_POSITION_INT", lon := some 1, alt := some 2 }

/-- Counterexample to claim C2 as stated: on an ATTITUDE message missing its
`roll` attribute the extractor raises `AttributeError` instead of returning
absent (its outcome is not an "absent" yield), and likewise the position
extractor on a message missing `lat`. -/
theorem attitude_extractor_raises_not_absent :
    _process_attitude_message 0 badAtt = Except.error PyError.attributeError ∧
    yieldsAbsent ((_process_attitude_message 0 badAtt).map MsgData.attitude) = false ∧
    _process_position_message 0 badPos = Except.error PyError.attributeError :=
  ⟨rfl, rfl, rfl⟩

/-- Claim C2 as amended: an extractor never returns an absent (falsy) value at
all; when every required attribute is present it returns the record, and
when any required attribute is missing it raises `AttributeError` rather
than returning absent. -/
theorem extractors_raise_on_missing (now : Rat) (m : Msg) :
    yieldsAbsent ((_process_attitude_message now m).map MsgData.attitude) = false ∧
    yieldsAbsent ((_process_position_message now m).map MsgData.position) = false ∧
    ((m.roll.isSome && m.pitch.isSome && m.yaw.isSome) = true →
      ∃ d, _process_attitude_message now m = Except.ok d) ∧
    ((m.roll.isSome && m.pitch.isSome && m.yaw.isSome) = false →
      _process_attitude_message now m = Except.error PyError.attributeError) ∧
    ((m.lat.isSome && m.lon.isSome && m.alt.isSome) = true →
      ∃ d, _process_position_message now m = Except.ok d) ∧
    ((m.lat.isSome && m.lon.isSome && m.alt.isSome) = false →
      _process_position_message now m = Except.error PyError.attributeError) := by
  cases hr : m.roll <;> cases hp : m.pitch <;> cases hy : m.yaw <;>
    cases hla : m.lat <;> cases hlo : m.lon <;> cases hal : m.alt <;>
      simp [_process_attitude_message, _process_position_message, pyGetAttr,
        yieldsAbsent, pyDictTruthy, MsgData.entryCount, Except.map, hr, hp, hy,
        hla, hlo, hal]

/-- Witness for C2 (amended): concrete well-formed messages extract to records,
concrete malformed ones raise. -/
theorem extractors_raise_on_missing_witness :
    (∃ d, _process_attitude_message 0 goodAtt = Except.ok d) ∧
    _process_attitude_message 0 badAtt = Except.error PyError.attributeError ∧
    (∃ d, _process_position_message 0 goodPos = Except.ok d) ∧
    _process_position_message 0 badPos = Except.error PyError.attributeError :=
  ⟨(extractors_raise_on_missing 0 goodAtt).2.2.1 (by decide),
   (extractors_raise_on_missing 0 badAtt).2.2.2.1 (by decide),
   (extractors_raise_on_missing 0 goodPos).2.2.2.2.1 (by decide),
   (extractors_raise_on_missing 0 badPos).2.2.2.2.2 (by decide)⟩

/-- A loop event whose message (if any) is of a type the dispatch dict does
not contain. -/
def evUnsupported : Option Msg × Rat → Bool
  | (none, _) => true
  | (some m, _) => m.get_type != "ATTITUDE" && m.get_type != "GLOBAL_POSITION_INT"

/-- Claim C5: a message whose type is not a key of the dispatch dict leaves the
collector unchanged and raises nothing; hence a stream of such messages
leaves every buffer exactly as it was. -/
theorem unsupported_kind_ignored :
    (∀ (now : Rat) (c : DataCollector) (m : Msg),
      m.get_type ≠ "ATTITUDE" → m.get_type ≠ "GLOBAL_POSITION_INT" →
      processMsg now c (some m) = Except.ok c) ∧
    (∀ (c : DataCollector) (evs : List (Option Msg × Rat)),
      (∀ ev ∈ evs, evUnsupported ev = true) →
      runLoop c evs = (c, none)) := by
  have h1 : ∀ (now : Rat) (c : DataCollector) (m : Msg),
      m.get_type ≠ "ATTITUDE" → m.get_type ≠ "GLOBAL_POSITION_INT" →
      processMsg now c (some m) = Except.ok c := by
    intro now c m ha hp
    simp [processMsg, message_types, ha, hp]
  refine ⟨h1, ?_⟩
  intro c evs
  induction evs generalizing c with
  | nil => intro _; rfl
  | cons ev rest ih =>
    intro h
    have hrest : ∀ ev ∈ rest, evUnsupported ev = true :=
      fun ev hev => h ev (List.mem_cons_of_mem _ hev)
    obtain ⟨m, t⟩ := ev
    cases m with
    | none =>
      exact ih c hrest
    | some msg =>
      have hm := h (some msg, t) (List.mem_cons_self _ _)
      simp only [evUnsupported, Bool.and_eq_true, bne_iff_ne] at hm
      have hpm := h1 t c msg hm.1 hm.2
      have h0 : runLoop c ((some msg, t) :: rest) = runLoop c rest := by
        simp only [runLoop, hpm]
      rw [h0]
      exact ih c hrest

/-- One well-formed iteration: a message carrying all the attributes its
type's extractor reads is processed without an exception, appending exactly
its extracted record (if any) to exactly its type's list. -/
theorem processMsg_wellFormed (now : Rat) (c : DataCollector) (m : Msg)
    (h : msgWellFormed m = true) :
    processMsg now c (some m) = Except.ok
      { c with
        attitude_data := c.attitude_data ++ (extractedAttitude (some m, now)).toList,
        position_data := c.position_data ++ (extractedPosition (some m, now)).toList } := by
  by_cases hA : m.get_type = "ATTITUDE"
  · have h' : (m.roll.isSome && m.pitch.isSome && m.yaw.isSome) = true := by
      simpa [msgWellFormed, hA] using h
    simp only [Bool.and_eq_true] at h'
    obtain ⟨⟨h1, h2⟩, h3⟩ := h'
    obtain ⟨r, hr⟩ := Option.isSome_iff_exists.mp h1
    obtain ⟨p, hp⟩ := Option.isSome_iff_exists.mp h2
    obtain ⟨y, hy⟩ := Option.isSome_iff_exists.mp h3
    simp [processMsg, message_types, extractedAttitude, extractedPosition, hA,
      _process_attitude_message, pyGetAttr, hr, hp, hy, pyDictTruthy,
      MsgData.entryCount, Except.map]
  · by_cases hP : m.get_type = "GLOBAL_POSITION_INT"
    · have h' : (m.lat.isSome && m.lon.isSome && m.alt.isSome) = true := by
        simpa [msgWellFormed, hA, hP] using h
      simp only [Bool.and_eq_true] at h'
      obtain ⟨⟨h1, h2⟩, h3⟩ := h'
      obtain ⟨la, hla⟩ := Option.isSome_iff_exists.mp h1
      obtain ⟨lo, hlo⟩ := Option.isSome_iff_exists.mp h2
      obtain ⟨al, hal⟩ := Option.isSome_iff_exists.mp h3
      simp [processMsg, message_types, extractedAttitude, extractedPosition, hA, hP,
        _process_position_message, pyGetAttr, hla, hlo, hal, pyDictTruthy,
        MsgData.entryCount, Except.map]
    · simp [processMsg, message_types, extractedAttitude, extractedPosition, hA, hP]

/-- Claim C1 as amended: over any finite stream in which every received
message of a supported type carries its required attributes (so no
extraction raises), the loop terminates normally and each list holds, in
arrival order, exactly one record per received message of its type whose
extractor yielded a (truthy) record — appended after whatever the list
already held — and no other records. -/
theorem buffers_match_stream (evs : List (Option Msg × Rat)) (c : DataCollector)
    (h : ∀ ev ∈ evs, evWellFormed ev = true) :
    runLoop c evs =
      ({ c with
          attitude_data := c.attitude_data ++ evs.filterMap extractedAttitude,
          position_data := c.position_data ++ evs.filterMap extractedPosition }, none) := by
  induction evs generalizing c with
  | nil => simp [runLoop]
  | cons ev rest ih =>
    have hrest : ∀ ev ∈ rest, evWellFormed ev = true :=
      fun ev hev => h ev (List.mem_cons_of_mem _ hev)
    obtain ⟨m, t⟩ := ev
    cases m with
    | none =>
      have h0 : runLoop c ((none, t) :: rest) = runLoop c rest := rfl
      rw [h0, ih c hrest]
      simp [List.filterMap_cons, extractedAttitude, extractedPosition]
    | some msg =>
      have hwf : msgWellFormed msg = true := h (some msg, t) (List.mem_cons_self _ _)
      have hpm := processMsg_wellFormed t c msg hwf
      have h0 : runLoop c ((some msg, t) :: rest) =
          runLoop { c with
            attitude_data := c.attitude_data ++ (extractedAttitude (some msg, t)).toList,
            position_data := c.position_data ++ (extractedPosition (some msg, t)).toList } rest := by
        simp only [runLoop, hpm]
      rw [h0, ih _ hrest]
      cases hEA : extractedAttitude (some msg, t) <;>
        cases hEP : extractedPosition (some msg, t) <;>
          simp [List.filterMap_cons, hEA, hEP, List.append_assoc]

/-- Counterexample to claim C1 as stated: a received ATTITUDE message whose
extraction raises (so its extractor did not yield absent) produces no
record at all — the loop dies with the buffer still empty, instead of the
buffer holding one record for that message. -/
theorem missing_field_stops_loop :
    badAtt.get_type = "ATTITUDE" ∧
    yieldsAbsent ((_process_attitude_message 0 badAtt).map MsgData.attitude) = false ∧
    runLoop initialCollector [(some badAtt, 0)] =
      (initialCollector, some PyError.attributeError) ∧
    (runLoop initialCollector [(some badAtt, 0)]).1.attitude_data = [] :=
  ⟨rfl, rfl, rfl, rfl⟩

/-- Witness for C1 (amended): a concrete stream of one attitude message, one
position message, one unsupported message and one empty receive fills the
two lists with exactly the two extracted records, in order. -/
theorem buffers_match_stream_witness :
    runLoop initialCollector
        [(some goodAtt, 5), (some goodPos, 6), (some heartbeatMsg, 7), (none, 8)] =
      ({ attitude_data := [MsgData.attitude { timestamp := 5, roll := 1, pitch := 2, yaw := 3 }],
         position_data := [MsgData.position
           { timestamp := 6, latitude := 473978450, longitude := 85455280, altitude := 500000 }],
         running := false, collection_thread := none }, none) :=
  (buffers_match_stream
    [(some goodAtt, 5), (some goodPos, 6), (some heartbeatMsg, 7), (none, 8)]
    initialCollector (by decide)).trans rfl

/-- Join invariant: starting from a configuration in which `stop_collection`
has not begun, in every reachable configuration the stopper has returned
only if the loop thread has exited. -/
theorem reachable_returned_exited {s0 s : Sys} (h0 : s0.stopPC = StopPC.idle)
    (h : Reachable s0 s) : s.stopPC = StopPC.returned → s.loopPC = LoopPC.exited := by
  induction h with
  | refl =>
    intro hc
    rw [h0] at hc
    cases hc
  | tail hr hs ih =>
    intro hc
    cases hs with
    | checkTrue hpc hrun =>
      have h2 := ih hc
      rw [hpc] at h2
      cases h2
    | checkFalse hpc hrun => rfl
    | recvDeliver ev rest hpc hpend =>
      have h2 := ih hc
      rw [hpc] at h2
      cases h2
    | dispatchOk ev c' hpc hproc =>
      have h2 := ih hc
      rw [hpc] at h2
      cases h2
    | dispatchErr ev e hpc hproc => rfl
    | stopSet hpc => cases hc
    | stopJoin hpc hloop => exact hloop

/-- Claim C7: (1) while the system runs, any reachable configuration in which
`stop_collection` has returned is one in which the collection loop has
already observed the flag and exited (join semantics); (2) the step in
which `stop_collection` leaves its idle phase is exactly the one that sets
the running flag to `False`; (3) the loop reads the flag once per
iteration: from a configuration whose flag is already cleared and whose
loop thread sits at the top-of-loop check, no step can start a new
receive — only the in-flight cycle, if any, can still complete. -/
theorem stop_collection_join_semantics (s0 s : Sys)
    (h0 : s0.stopPC = StopPC.idle) (hre : Reachable s0 s) :
    (s.stopPC = StopPC.returned → s.loopPC = LoopPC.exited) ∧
    (∀ s', Step s s' → s.stopPC = StopPC.idle → s'.stopPC = StopPC.flagCleared →
      s'.coll.running = false) ∧
    (∀ s', s.coll.running = false → s.loopPC = LoopPC.check → Step s s' →
      s'.loopPC ≠ LoopPC.recvWait) := by
  refine ⟨reachable_returned_exited h0 hre, ?_, ?_⟩
  · intro s' hs hidle hfc
    cases hs <;> simp_all
  · intro s' hrun hpc hs
    cases hs <;> simp_all

/-- A started collector under a pending `stop_collection` call: flag set,
loop at its top-of-loop check, no deliveries pending. -/
def sysStart : Sys :=
  { coll := { attitude_data := [], position_data := [], running := true,
              collection_thread := some () },
    loopPC := LoopPC.check, stopPC := StopPC.idle, pending := [] }

/-- The state `sysStart` after `stop_collection` cleared the flag. -/
def sysFlagged : Sys :=
  { sysStart with coll := { sysStart.coll with running := false },
                  stopPC := StopPC.flagCleared }

/-- The state `sysFlagged` after the loop observed the cleared flag and exited. -/
def sysExited : Sys :=
  { sysFlagged with loopPC := LoopPC.exited }

/-- The state `sysExited` after `join()` returned to the stopping caller. -/
def sysReturned : Sys :=
  { sysExited with stopPC := StopPC.returned }

/-- Witness for C7: along the concrete trace set-flag, observe-flag-and-exit,
join-returns, the returned configuration indeed has the loop exited. -/
theorem stop_collection_join_semantics_witness :
    sysReturned.stopPC = StopPC.returned ∧ sysReturned.loopPC = LoopPC.exited := by
  have hre : Reachable sysStart sysReturned :=
    Reachable.tail
      (Reachable.tail
        (Reachable.tail Reachable.refl (Step.stopSet sysStart rfl))
        (Step.checkFalse sysFlagged rfl rfl))
      (Step.stopJoin sysExited rfl rfl)
  exact ⟨rfl, (stop_collection_join_semantics sysStart sysReturned rfl hre).1 rfl⟩

/-- A sample attitude dictionary used as a concrete appended record. -/
def sampleAtt : MsgData :=
  MsgData.attitude { timestamp := 0, roll := 1, pitch := 2, yaw := 3 }

/-- Witness for C3: on a fresh collector the ATTITUDE snapshot is the empty
frame, and after a record is appended the snapshot differs from the one
returned before the append. -/
theorem get_collected_data_snapshot_witness :
    get_collected_data initialCollector (some "ATTITUDE") = QueryResult.frame [] ∧
    get_collected_data { initialCollector with attitude_data := [sampleAtt] }
        (some "ATTITUDE") ≠ get_collected_data initialCollector (some "ATTITUDE") := by
  obtain ⟨h1, h2, h3, h4⟩ := get_collected_data_snapshot initialCollector sampleAtt
  exact ⟨h1, h3⟩

/-- Witness for C9: on a fresh collector the empty-string query returns the
full (empty) mapping, not the "no such kind" result. -/
theorem get_collected_data_empty_string_witness :
    get_collected_data initialCollector (some "") = QueryResult.frames [] [] ∧
    get_collected_data initialCollector (some "") ≠ QueryResult.pyNone := by
  obtain ⟨h1, h2, h3⟩ := get_collected_data_empty_string initialCollector
  exact ⟨h2, h3⟩

/-- Witness for C5: processing a concrete HEARTBEAT message leaves the fresh
collector untouched, and a stream consisting of it plus an empty receive
ends with the collector unchanged and no error. -/
theorem unsupported_kind_ignored_witness :
    processMsg 0 initialCollector (some heartbeatMsg) = Except.ok initialCollector ∧
    runLoop initialCollector [(some heartbeatMsg, 0), (none, 1)] = (initialCollector, none) :=
  ⟨unsupported_kind_ignored.1 0 initialCollector heartbeatMsg (by decide) (by decide),
   unsupported_kind_ignored.2 initialCollector [(some heartbeatMsg, 0), (none, 1)] (by decide)⟩
